import Mathlib

/-!
Verification of the trading decision loop of the `upbit-dashboard` repository.

The development shallowly embeds the Python sources:
- `src/trading_engine.py` (`TradingEngine`: signal aggregation, trade execution,
  stop-loss and take-profit gating, engine lifecycle, volatility adaptation),
- `src/strategies/sma_strategy.py`, `rsi_strategy.py`, `bollinger_strategy.py`
  (per-strategy `generate_signal`).

Python floats are modelled as exact rationals (`ℚ`); the points where IEEE
semantics matter (division by zero producing `inf`/`NaN` in the RSI, `round`
being half-to-even) are modelled explicitly at those spots.  Python exceptions
that the embedded code can raise and catch are modelled with `PyResult`.
The exchange gateway (`UpbitAPI`) is the external collaborator declared in the
specification; it is modelled as an oracle (`Api`) supplying balances, prices,
the average buy price, and the behaviour of `place_order` at each call.
-/

namespace UpbitDash

/-- Result of running a piece of Python code that may raise an exception which
is caught by a surrounding `try`/`except` handler.  `exn` carries no payload:
the handlers in `trading_engine.py` only log the exception. -/
inductive PyResult (α : Type) where
  | ok (val : α)
  | exn
  deriving DecidableEq

/-- A value returned by a strategy's `generate_signal`.
`SMAStrategy` and `BollingerStrategy` return a dict
`{action, price, strategy}` (or `None`, modelled by `Option`);
`RSIStrategy` returns a bare int `1` / `-1` / `0`. -/
inductive PySignal where
  | intSig (v : ℤ)
  | dictSig (action : String) (price : ℚ) (strategy : String)
  deriving DecidableEq

/-- Whether the Python value is a dict (`isinstance(signal, dict)`). -/
def PySignal.isDict : PySignal → Bool
  | .intSig _ => false
  | .dictSig _ _ _ => true

/-- Python truthiness of an optional signal: `None` and the int `0` are falsy. -/
def signalTruthy : Option PySignal → Bool
  | none => false
  | some (.intSig v) => v ≠ 0
  | some (.dictSig _ _ _) => true

/-- The dict has the given value under the key `action`
(`signal.get('action') == a` for dict signals; always false for ints, which is
only meaningful where the int case cannot raise). -/
def PySignal.hasAction : PySignal → String → Bool
  | .dictSig a _ _, x => a = x
  | .intSig _, _ => false

/-! ### Strategy `generate_signal` embeddings

Each strategy fetches a candle dataframe and derives its latest indicator row.
The dataframe is abstracted to the fields the decision code reads: its length
and the latest indicator values.  `none` stands for `self.df is None`
(failed fetch). -/

/-- The fields of `SMAStrategy.df` read by `generate_signal`:
`len(self.df)`, `self.df['position'].iloc[-1]` and `self.df['close'].iloc[-1]`. -/
structure SmaDf where
  len : ℕ
  latestPosition : ℤ
  latestClose : ℚ
  deriving DecidableEq

/-- `SMAStrategy.generate_signal` (sma_strategy.py, lines 60-103):
`calculate_indicators` returns `False` when the dataframe is missing or shorter
than `long_window`, in which case the signal is `None`; otherwise the latest
`position` value selects a BUY or SELL dict, else `None` (hold). -/
def smaGenerateSignal (df : Option SmaDf) (longWindow : ℕ) : Option PySignal :=
  match df with
  | none => none
  | some d =>
    if d.len < longWindow then none
    else if d.len = 0 then none
    else if d.latestPosition = 1 then
      some (.dictSig "BUY" d.latestClose "SMA Crossover")
    else if d.latestPosition = -1 then
      some (.dictSig "SELL" d.latestClose "SMA Crossover")
    else none

/-- The fields of `RSIStrategy.df` read by `generate_signal`:
`len(self.df)` and `self.df['rsi'].iloc[-1]`. -/
structure RsiDf where
  len : ℕ
  latestRSI : ℚ
  deriving DecidableEq

/-- `RSIStrategy.generate_signal` (rsi_strategy.py, lines 68-102): returns the
bare int `1` (buy) when the latest RSI is below `oversold`, `-1` (sell) when
above `overbought`, and `0` (hold) otherwise or when `calculate_rsi` fails for
lack of data.  Note that, unlike the other two strategies, it does not return
a dict. -/
def rsiGenerateSignal (df : Option RsiDf) (period : ℕ)
    (oversold overbought : ℚ) : ℤ :=
  match df with
  | none => 0
  | some d =>
    if d.len < period then 0
    else if d.len = 0 then 0
    else if d.latestRSI < oversold then 1
    else if overbought < d.latestRSI then -1
    else 0

/-- The fields of `BollingerStrategy.df` read by `generate_signal`:
`len(self.df)` and the latest `close`, `lower_band` and `upper_band` values. -/
structure BollDf where
  len : ℕ
  latestClose : ℚ
  lowerBand : ℚ
  upperBand : ℚ
  deriving DecidableEq

/-- `BollingerStrategy.generate_signal` (bollinger_strategy.py, lines 73-120):
`None` when the dataframe is missing or shorter than `period`; a BUY dict when
the latest close is below the lower band, a SELL dict when above the upper
band, otherwise `None` (hold). -/
def bollingerGenerateSignal (df : Option BollDf) (period : ℕ) : Option PySignal :=
  match df with
  | none => none
  | some d =>
    if d.len < period then none
    else if d.len = 0 then none
    else if d.latestClose < d.lowerBand then
      some (.dictSig "BUY" d.latestClose "Bollinger Bands")
    else if d.upperBand < d.latestClose then
      some (.dictSig "SELL" d.latestClose "Bollinger Bands")
    else none

/-! ### Engine lifecycle (`start`, `stop`, `start_engine`, `stop_engine`)

`TradingEngine.__init__` sets `running = False` and
`is_trading_enabled = False`.  The four public lifecycle operations mutate just
these two flags (threading effects are not part of the flags' semantics). -/

/-- The two lifecycle flags of `TradingEngine`. -/
structure LifecycleState where
  running : Bool
  isTradingEnabled : Bool
  deriving DecidableEq

/-- Initial state from `TradingEngine.__init__`. -/
def initState : LifecycleState := ⟨false, false⟩

/-- `TradingEngine.start_engine` (lines 238-250): returns immediately when
already running, otherwise sets `running = True` and launches the loop. -/
def startEngine (s : LifecycleState) : LifecycleState :=
  if s.running then s else { s with running := true }

/-- `TradingEngine.stop_engine` (lines 252-260): sets `running = False` and
joins the worker.  It does not touch `is_trading_enabled`. -/
def stopEngine (s : LifecycleState) : LifecycleState :=
  { s with running := false }

/-- `TradingEngine.start` (lines 145-160): always sets
`is_trading_enabled = True`, then calls `start_engine` when not running. -/
def start (s : LifecycleState) : LifecycleState :=
  let s1 := { s with isTradingEnabled := true }
  if s1.running then s1 else startEngine s1

/-- `TradingEngine.stop` (lines 162-170): sets `is_trading_enabled = False`,
but only when the engine is running. -/
def stop (s : LifecycleState) : LifecycleState :=
  if s.running then { s with isTradingEnabled := false } else s

/-- The four lifecycle operations. -/
inductive LifecycleOp where
  | start
  | stop
  | startEngine
  | stopEngine
  deriving DecidableEq

/-- Apply one lifecycle operation. -/
def applyOp (s : LifecycleState) : LifecycleOp → LifecycleState
  | .start => start s
  | .stop => stop s
  | .startEngine => startEngine s
  | .stopEngine => stopEngine s

/-- Run a sequence of lifecycle operations from a state. -/
def runOps (s : LifecycleState) (ops : List LifecycleOp) : LifecycleState :=
  ops.foldl applyOp s

/-- The invariant claimed by the specification:
`is_trading_enabled` implies `running`. -/
def tradingInvariant (s : LifecycleState) : Prop :=
  s.isTradingEnabled = true → s.running = true

/-! ### Engine-level strategy objects

`TradingEngine.strategies[market]` holds the strategy instances registered for
one market.  The engine code reads, per instance: its class
(`isinstance(strategy, RSIStrategy)` / `BollingerStrategy`), the result of
`generate_signal()` and the latest `rsi` / `bbw` dataframe values.  One cycle
of the loop is modelled with these observations as a snapshot. -/

/-- The concrete class of a registered strategy instance. -/
inductive StratKind where
  | sma
  | rsi
  | bollinger
  deriving DecidableEq

/-- Snapshot of one registered strategy instance as the engine observes it:
`signal` is what `generate_signal()` returns at this instant (`none` for
Python `None`), `latestRSI` is `strategy.df['rsi'].iloc[-1]`, `latestBBW` is
`strategy.df['bbw'].iloc[-1]`, and the three threshold fields are the mutable
parameters the volatility adapter tries to reassign. -/
structure StrategyObj where
  kind : StratKind
  signal : Option PySignal := none
  latestRSI : ℚ := 0
  latestBBW : ℚ := 0
  overbought : ℚ := 70
  oversold : ℚ := 30
  stdDev : ℚ := 2
  deriving DecidableEq

/-- The vote count of `TradingEngine.is_strong_sell_signal` (lines 415-425):
iterates the market's strategies counting `signal.get('action') == 'SELL'`.
A truthy non-dict signal (the ints `1` / `-1` from `RSIStrategy`) makes
`signal.get` raise `AttributeError`, modelled by `exn`; `None` and the int `0`
are falsy and skipped by the `if signal and ...` guard. -/
def sellVotes : List StrategyObj → PyResult ℕ
  | [] => .ok 0
  | s :: rest =>
    match s.signal with
    | none => sellVotes rest
    | some (.intSig v) => if v = 0 then sellVotes rest else .exn
    | some (.dictSig a _ _) =>
      match sellVotes rest with
      | .exn => .exn
      | .ok n => .ok (if a = "SELL" then n + 1 else n)

/-- `TradingEngine.is_strong_sell_signal`: at least 2 strategies emit SELL. -/
def isStrongSellSignal (strats : List StrategyObj) : PyResult Bool :=
  match sellVotes strats with
  | .exn => .exn
  | .ok n => .ok (2 ≤ n)

/-- `TradingEngine.is_extreme_sell_signal` (lines 427-444): scans the market's
strategies; an RSI strategy currently emitting SELL with latest RSI above 85,
or a Bollinger strategy emitting SELL with latest band-width ratio above 0.05,
makes the check true.  As in `sellVotes`, `signal.get('action')` raises on a
truthy int signal. -/
def isExtremeSellSignal : List StrategyObj → PyResult Bool
  | [] => .ok false
  | s :: rest =>
    match s.kind with
    | .sma => isExtremeSellSignal rest
    | .rsi =>
      match s.signal with
      | none => isExtremeSellSignal rest
      | some (.intSig v) => if v = 0 then isExtremeSellSignal rest else .exn
      | some (.dictSig a _ _) =>
        if a = "SELL" ∧ 85 < s.latestRSI then .ok true
        else isExtremeSellSignal rest
    | .bollinger =>
      match s.signal with
      | none => isExtremeSellSignal rest
      | some (.intSig v) => if v = 0 then isExtremeSellSignal rest else .exn
      | some (.dictSig a _ _) =>
        if a = "SELL" ∧ 1/20 < s.latestBBW then .ok true
        else isExtremeSellSignal rest

/-! ### Signal aggregation (`TradingEngine.process_signals`)

The observable outcome of one `process_signals` call is the ordered sequence
of `execute_trade` invocations it makes (position state is a snapshot:
`_in_position` asks the exchange for the base-currency balance, which does not
change between the checks within one call). -/

/-- One `execute_trade(market, action, strategy_name, price)` invocation. -/
structure TradeCall where
  action : String
  strategy : String
  price : ℚ
  deriving DecidableEq

/-- Vote counting in `process_signals` (lines 118-119):
`sum(1 for signal in signals if signal.get('action') == a)`.  Any int signal
in the list makes `signal.get` raise `AttributeError`. -/
def actionVotes (a : String) : List PySignal → PyResult ℕ
  | [] => .ok 0
  | s :: rest =>
    match s with
    | .intSig _ => .exn
    | .dictSig act _ _ =>
      match actionVotes a rest with
      | .exn => .exn
      | .ok n => .ok (if act = a then n + 1 else n)

/-- The per-signal fallback loop of `process_signals` (lines 129-143):
non-dict signals are skipped by the `isinstance` guard; a BUY dict triggers a
trade only when not in position, a SELL dict only when in position. -/
def perSignalCalls (inPos : Bool) (signals : List PySignal) : List TradeCall :=
  signals.filterMap fun s =>
    match s with
    | .intSig _ => none
    | .dictSig act pr nm =>
      if act = "BUY" ∧ inPos = false then some ⟨"BUY", nm, pr⟩
      else if act = "SELL" ∧ inPos = true then some ⟨"SELL", nm, pr⟩
      else none

/-- `TradingEngine.process_signals` (lines 101-143).  `enabled` is
`self.is_trading_enabled`, `cur` is `self.api.get_current_price(market)`
(`none` for a failed fetch; the value `0` is falsy and also bails out), and
`balBase` is the base-currency balance backing `_in_position`. -/
def processSignals (enabled : Bool) (cur : Option ℚ) (balBase : ℚ)
    (signals : List PySignal) : PyResult (List TradeCall) :=
  if enabled = false then .ok []
  else
    match cur with
    | none => .ok []
    | some cp =>
      if cp = 0 then .ok []
      else
        match actionVotes "BUY" signals with
        | .exn => .exn
        | .ok buys =>
          match actionVotes "SELL" signals with
          | .exn => .exn
          | .ok sells =>
            let inPos : Bool := 0 < balBase
            if 2 ≤ buys ∧ inPos = false then .ok [⟨"BUY", "COMBINED", cp⟩]
            else if 2 ≤ sells ∧ inPos = true then .ok [⟨"SELL", "COMBINED", cp⟩]
            else .ok (perSignalCalls inPos signals)

/-! ### Rounding

`execute_trade` computes `volume = round(amount / price, 8)`.  Python's
`round` rounds half to even; over exact rationals this is modelled by
`halfEvenRound` applied at 8 decimal places.  `truncate8` is the operation the
specification describes ("truncated to 8 decimal places"), written here for
comparison: truncation toward zero. -/

/-- Round a rational to the nearest integer, ties to the even integer
(the rounding mode of Python's builtin `round`). -/
def halfEvenRound (q : ℚ) : ℤ :=
  let n := q.floor
  let f := q - n
  if f < 1/2 then n
  else if 1/2 < f then n + 1
  else if n % 2 = 0 then n else n + 1

/-- Python's `round(q, 8)` over exact rationals. -/
def pyRound8 (q : ℚ) : ℚ :=
  (halfEvenRound (q * 100000000) : ℚ) / 100000000

/-- The specification's operation: `q` truncated (toward zero) to 8 decimal
places. -/
def truncate8 (q : ℚ) : ℚ :=
  ((if 0 ≤ q * 100000000 then (q * 100000000).floor
    else -((-(q * 100000000)).floor) : ℤ) : ℚ) / 100000000

/-! ### Order execution (`TradingEngine.execute_trade`) -/

/-- Behaviour of one `place_order` call on the gateway. -/
inductive PlaceResult where
  | confirmed
  | rejected
  | raises
  deriving DecidableEq

/-- Order side, Upbit's `bid` (buy) / `ask` (sell). -/
inductive Side where
  | bid
  | ask
  deriving DecidableEq

/-- A `place_order(market, side, volume, price, 'limit')` call as submitted. -/
structure Order where
  side : Side
  volume : ℚ
  price : ℚ
  deriving DecidableEq

/-- Which of the three sell paths of `execute_trade` placed the sell order
(they are distinguished in the source by separate logs and early returns). -/
inductive SellKind where
  | stopLoss
  | takeProfit
  | normal
  deriving DecidableEq

/-- The gateway oracle for one market, per the specification's external
interface: balances, current price, average buy price (absent = `None`), the
risk manager's position size, and the behaviour of the n-th `place_order`
call. -/
structure Api where
  balanceKRW : ℚ
  balanceBase : ℚ
  currentPrice : Option ℚ
  avgBuyPrice : Option ℚ
  positionSize : ℚ
  placeOrder : ℕ → PlaceResult

/-- The engine state `execute_trade` reads for one market: the two mode flags,
the market's registered strategies and the recorded buy price
(`self.buy_prices.get(market)`). -/
structure EngineCtx where
  isTradingEnabled : Bool
  fullAmountMode : Bool
  strategies : List StrategyObj
  buyPrice : Option ℚ

/-- Everything observable about one `execute_trade` call: the orders
submitted to the gateway (in order, including ones whose submission raised),
the Python return value (`True` or `None`), the recorded buy price afterwards,
and which sell path ran, if any. -/
structure TradeResult where
  orders : List Order
  retval : Option Bool
  buyPrice : Option ℚ
  sellKind : Option SellKind
  deriving DecidableEq

/-- Result of an `execute_trade` call that places no order and leaves the
recorded buy price unchanged (all the early `return` paths, and exceptions
swallowed before any order went out). -/
def noTrade (eng : EngineCtx) : TradeResult :=
  ⟨[], none, eng.buyPrice, none⟩

/-- Resolution of the `price` argument (lines 276-281): a falsy argument
(`None` or `0`) is replaced by `get_current_price`, and a still-falsy price
aborts the call. -/
def resolvePrice (priceArg cur : Option ℚ) : Option ℚ :=
  let p := match priceArg with
    | some q => if q = 0 then cur else some q
    | none => cur
  match p with
  | some q => if q = 0 then none else some q
  | none => none

/-- Python's short-circuiting `and` where the right operand is a call that may
raise: the right side runs only when the left is true. -/
def pyAnd (b : Bool) (r : Unit → PyResult Bool) : PyResult Bool :=
  if b then r () else .ok false

/-- Submission of the buy order (lines 317-323 / 355-361): on a confirmed
order the buy price is recorded and `True` returned; a `None` order or a
raised-and-caught exception leaves the state unchanged and returns `None`.
The order itself counts as submitted in every case. -/
def submitBuy (api : Api) (eng : EngineCtx) (amount p : ℚ) : TradeResult :=
  let o : Order := ⟨.bid, pyRound8 (amount / p), p⟩
  match api.placeOrder 0 with
  | .confirmed => ⟨[o], some true, some p, none⟩
  | .rejected => ⟨[o], none, eng.buyPrice, none⟩
  | .raises => ⟨[o], none, eng.buyPrice, none⟩

/-- Submission of a full-balance sell (stop-loss, take-profit or normal path):
all three paths return `None` in the source and do not touch `buy_prices`;
the gateway outcome only affects logging. -/
def submitSell (api : Api) (eng : EngineCtx) (p : ℚ) (kind : SellKind) :
    TradeResult :=
  ⟨[⟨.ask, api.balanceBase, p⟩], none, eng.buyPrice, some kind⟩

/-- The full-amount-mode BUY branch (lines 285-323). -/
def buyFullAmount (api : Api) (eng : EngineCtx) (p : ℚ) : TradeResult :=
  if api.balanceKRW < 5000 then noTrade eng
  else if api.balanceKRW ≤ 0 then noTrade eng
  else
    let amount0 := min (api.balanceKRW * 1) (api.balanceKRW * (9995/10000))
    let amount := if amount0 < 5000 then (5000 : ℚ) else amount0
    submitBuy api eng amount p

/-- The risk-managed BUY branch (lines 325-361), with
`risk_manager.calculate_position_size` supplied by the oracle. -/
def buyRiskManaged (api : Api) (eng : EngineCtx) (p : ℚ) : TradeResult :=
  if api.positionSize ≤ 0 then noTrade eng
  else if api.balanceKRW < 5000 then noTrade eng
  else
    let ps := min (api.positionSize * 1) api.positionSize
    let amount0 := min ps (api.balanceKRW * (9995/10000))
    let amount := if amount0 < 5000 then (5000 : ℚ) else amount0
    submitBuy api eng amount p

/-- The SELL branch (lines 363-410).  When an average buy price is known and
nonzero the margin is computed and the stop-loss / take-profit condition lists
are evaluated; the list elements short-circuit with `and`, so
`is_strong_sell_signal` / `is_extreme_sell_signal` run only when the margin
comparison on their left is true, and an `AttributeError` they raise is caught
by the surrounding handler before any order is placed. -/
def sellBranch (api : Api) (eng : EngineCtx) (p : ℚ) : TradeResult :=
  if api.balanceBase ≤ 0 then noTrade eng
  else
    match api.avgBuyPrice with
    | none => submitSell api eng p .normal
    | some a =>
      if a = 0 then submitSell api eng p .normal
      else
        let m := (p - a) / a * 100
        match pyAnd (decide (m < -(8/10))) (fun _ => isStrongSellSignal eng.strategies) with
        | .exn => noTrade eng
        | .ok c2 =>
          match pyAnd (decide (m < -(5/10))) (fun _ => isExtremeSellSignal eng.strategies) with
          | .exn => noTrade eng
          | .ok c3 =>
            match pyAnd (decide (15/10 < m)) (fun _ => isStrongSellSignal eng.strategies) with
            | .exn => noTrade eng
            | .ok t2 =>
              match pyAnd (decide (1 < m)) (fun _ => isExtremeSellSignal eng.strategies) with
              | .exn => noTrade eng
              | .ok t3 =>
                if m < -1 ∨ c2 = true ∨ c3 = true then
                  submitSell api eng p .stopLoss
                else if 2 < m ∨ t2 = true ∨ t3 = true then
                  submitSell api eng p .takeProfit
                else submitSell api eng p .normal

/-- `TradingEngine.execute_trade` (lines 262-413) for one market. -/
def executeTrade (api : Api) (eng : EngineCtx) (action : String)
    (priceArg : Option ℚ) : TradeResult :=
  if eng.isTradingEnabled = false then noTrade eng
  else
    match resolvePrice priceArg api.currentPrice with
    | none => noTrade eng
    | some p =>
      if action = "BUY" then
        if eng.fullAmountMode then buyFullAmount api eng p
        else buyRiskManaged api eng p
      else if action = "SELL" then sellBranch api eng p
      else noTrade eng

/-! ### RSI arithmetic (`RSIStrategy.calculate_rsi`, lines 34-66)

`delta = close.diff()` (first entry `NaN`), `gain = delta.where(delta > 0, 0)`
and `loss = -delta.where(delta < 0, 0)` (both turn the leading `NaN` into `0`,
since `NaN > 0` and `NaN < 0` are false), then the rolling mean over `period`
rows; the last row's `rs = avg_gain / avg_loss` and
`rsi = 100 - 100 / (1 + rs)`.  The float division semantics at
`avg_loss = 0` are modelled explicitly: `x / 0 = ±inf` for `x ≠ 0`, giving
`rsi = 100`, and `0 / 0 = NaN`, propagated as `none`. -/

/-- Successive differences of a list, `l[i+1] - l[i]`. -/
def diffs : List ℚ → List ℚ
  | [] => []
  | [_] => []
  | a :: b :: rest => (b - a) :: diffs (b :: rest)

/-- The `gain` column: leading `NaN` masked to `0`, positive deltas kept,
others `0`. -/
def gainSeries (closes : List ℚ) : List ℚ :=
  match closes with
  | [] => []
  | _ :: _ => 0 :: (diffs closes).map fun d => max d 0

/-- The `loss` column: leading `NaN` masked to `0`, negated negative deltas
kept, others `0`. -/
def lossSeries (closes : List ℚ) : List ℚ :=
  match closes with
  | [] => []
  | _ :: _ => 0 :: (diffs closes).map fun d => max (-d) 0

/-- Last row of `series.rolling(window=period).mean()`: the mean of the last
`period` entries. -/
def lastWindowMean (period : ℕ) (l : List ℚ) : ℚ :=
  ((l.drop (l.length - period)).sum) / period

/-- `100 - 100 / (1 + avg_gain / avg_loss)` under float semantics:
`avg_loss = 0` with a nonzero `avg_gain` gives `rs = ±inf` hence `rsi = 100`;
`0 / 0` is `NaN` (`none`). -/
def rsiFromAverages (avgGain avgLoss : ℚ) : Option ℚ :=
  if avgLoss = 0 then
    if avgGain = 0 then none else some 100
  else some (100 - 100 / (1 + avgGain / avgLoss))

/-- `self.df['rsi'].iloc[-1]` for a close-price series. -/
def lastRSI (closes : List ℚ) (period : ℕ) : Option ℚ :=
  rsiFromAverages (lastWindowMean period (gainSeries closes))
    (lastWindowMean period (lossSeries closes))

/-! ### Volatility-based strategy adaptation
(`TradingEngine._adjust_strategies_for_volatility`, lines 73-99)

`TradingEngine.__init__` sets `self.strategies = defaultdict(list)` and
`register_strategy` appends to `self.strategies[market]`, so the per-market
container is a Python `list`.  The adapter's body indexes that container with
the string keys `'rsi'` and `'bollinger'` — the access the code would need a
dict for.  The container is therefore modelled as a sum of the two shapes:
the `pylist` the engine actually builds, and the `pydict` shape the adapter's
body expects. -/

/-- The per-market strategy container. -/
inductive StratContainer where
  | pylist (objs : List StrategyObj)
  | pydict (rsiStrat bollStrat : StrategyObj)
  deriving DecidableEq

/-- `self.strategies[market]` before any registration: `defaultdict(list)`
yields the empty list. -/
def emptyStrategies : StratContainer := .pylist []

/-- `TradingEngine.register_strategy` (lines 56-63): appends to the market's
list.  (The `pydict` shape never arises from registration; a Python dict has
no `append`, so that branch leaves the container unchanged.) -/
def registerStrategy (c : StratContainer) (s : StrategyObj) : StratContainer :=
  match c with
  | .pylist objs => .pylist (objs ++ [s])
  | .pydict r b => .pydict r b

/-- `TradingEngine._adjust_strategies_for_volatility` (lines 73-99).  On the
`pylist` container the engine actually builds, the first statement
`self.strategies[market]['rsi']` raises `TypeError` (a list cannot be indexed
by a string) and the method's own `try`/`except` catches and logs it, so every
threshold is left unchanged.  On the `pydict` shape the body expects, the
thresholds would become (85, 15, 3.0) above 2.0% volatility, (70, 30, 2.0)
below 0.5%, and (80, 20, 2.5) in between. -/
def adjustStrategiesForVolatility (c : StratContainer) (vol : ℚ) :
    StratContainer :=
  match c with
  | .pylist objs => .pylist objs
  | .pydict r b =>
    if 2 < vol then
      .pydict { r with overbought := 85, oversold := 15 } { b with stdDev := 3 }
    else if vol < 5/10 then
      .pydict { r with overbought := 70, oversold := 30 } { b with stdDev := 2 }
    else
      .pydict { r with overbought := 80, oversold := 20 } { b with stdDev := 25/10 }

/-! ## Theorems -/

/-- Each lifecycle operation other than `stop_engine` preserves the
trading-enabled-implies-running invariant. -/
theorem applyOp_preserves (s : LifecycleState) (op : LifecycleOp)
    (hop : op ≠ LifecycleOp.stopEngine) (h : tradingInvariant s) :
    tradingInvariant (applyOp s op) := by
  cases s with
  | mk r e =>
    cases r <;> cases e <;> cases op <;>
      first
      | exact absurd rfl hop
      | (revert h; simp only [tradingInvariant]; decide)

/-- Sequences of `stop_engine`-free operations preserve the invariant. -/
theorem runOps_preserves (ops : List LifecycleOp) (s : LifecycleState)
    (hops : LifecycleOp.stopEngine ∉ ops) (h : tradingInvariant s) :
    tradingInvariant (runOps s ops) := by
  induction ops generalizing s with
  | nil => exact h
  | cons op rest ih =>
    have h1 : op ≠ LifecycleOp.stopEngine := by
      intro he
      exact hops (he ▸ List.mem_cons_self op rest)
    have h2 : LifecycleOp.stopEngine ∉ rest := by
      intro hm
      exact hops (List.mem_cons_of_mem op hm)
    exact ih (applyOp s op) h2 (applyOp_preserves s op h1 h)

/-- C4 counterexample: the state reached from the initial state by
`start(); stop_engine()` has `is_trading_enabled = True` and
`running = False`, violating the claimed invariant — `stop_engine` clears
`running` but leaves `is_trading_enabled` set. -/
theorem lifecycle_invariant_counterexample :
    (runOps initState [LifecycleOp.start, LifecycleOp.stopEngine]).isTradingEnabled
        = true ∧
    (runOps initState [LifecycleOp.start, LifecycleOp.stopEngine]).running
        = false := by
  decide

/-- C4 (amended): in every state reachable from the initial state by any
sequence of `start()`, `stop()` and `start_engine()` — `stop_engine()`
excluded — `is_trading_enabled = true` implies `running = true`. -/
theorem lifecycle_invariant_no_stopEngine (ops : List LifecycleOp)
    (h : LifecycleOp.stopEngine ∉ ops) :
    tradingInvariant (runOps initState ops) :=
  runOps_preserves ops initState h (by intro hx; cases hx)

/-- Witness for C4 (amended) at the concrete sequence `start(); stop()`. -/
theorem lifecycle_invariant_no_stopEngine_witness :
    tradingInvariant (runOps initState [LifecycleOp.start, LifecycleOp.stop]) :=
  lifecycle_invariant_no_stopEngine [LifecycleOp.start, LifecycleOp.stop]
    (by decide)

/-- C6: the claim that all three strategies emit `{action, price, strategy}`
records fails on `RSIStrategy`.  At 20 candles, period 14 and latest RSI 25
(below the oversold threshold 30) its `generate_signal` returns the bare int
`1`; that value is not a dict, and the aggregator's
`signal.get('action')` raises `AttributeError` on it, while the SMA and
Bollinger strategies do return the claimed records. -/
theorem rsi_signal_shape_bug :
    rsiGenerateSignal (some ⟨20, 25⟩) 14 30 70 = 1 ∧
    PySignal.isDict (.intSig 1) = false ∧
    processSignals true (some 100) 0 [.intSig 1] = .exn ∧
    smaGenerateSignal (some ⟨60, 1, 50⟩) 50 =
      some (.dictSig "BUY" 50 "SMA Crossover") ∧
    bollingerGenerateSignal (some ⟨30, 7, 8, 12⟩) 20 =
      some (.dictSig "BUY" 7 "Bollinger Bands") := by
  decide

/-- Registration only ever extends the per-market Python list. -/
theorem registerStrategy_foldl (objs l : List StrategyObj) :
    objs.foldl registerStrategy (StratContainer.pylist l)
      = StratContainer.pylist (l ++ objs) := by
  induction objs generalizing l with
  | nil => simp [List.foldl]
  | cons o rest ih =>
    simp only [List.foldl, registerStrategy]
    rw [ih]
    simp

/-- C7: for every set of registered strategies and every volatility value, the
volatility adapter leaves the container — and hence every RSI/Bollinger
threshold — unchanged: the container built by `register_strategy` is a Python
list, the adapter indexes it with the string `'rsi'`, and the resulting
`TypeError` is swallowed by the adapter's own `try`/`except`.  The claimed
thresholds (85, 15, 3.0) / (70, 30, 2.0) / (80, 20, 2.5) are never applied. -/
theorem volatility_adjust_noop (objs : List StrategyObj) (vol : ℚ) :
    adjustStrategiesForVolatility (objs.foldl registerStrategy emptyStrategies)
        vol
      = objs.foldl registerStrategy emptyStrategies := by
  rw [emptyStrategies, registerStrategy_foldl]
  rfl

/-- C8: each strategy returns its hold/no-signal value when the fetched candle
series is shorter than its required window: `None` for the SMA crossover
(window `long_window`), the int `0` for RSI (window `period`), `None` for
Bollinger Bands (window `period`).  The functions are total: no exception. -/
theorem short_series_hold (sdf : SmaDf) (rdf : RsiDf) (bdf : BollDf)
    (lw prsi pboll : ℕ) (oversold overbought : ℚ)
    (h1 : sdf.len < lw) (h2 : rdf.len < prsi) (h3 : bdf.len < pboll) :
    smaGenerateSignal (some sdf) lw = none ∧
    rsiGenerateSignal (some rdf) prsi oversold overbought = 0 ∧
    bollingerGenerateSignal (some bdf) pboll = none := by
  refine ⟨?_, ?_, ?_⟩
  · simp [smaGenerateSignal, h1]
  · simp [rsiGenerateSignal, h2]
  · simp [bollingerGenerateSignal, h3]

/-- Every run of `execute_trade` either bails out with no order, or submits a
single buy, or runs one of the three sell paths. -/
theorem executeTrade_cases (api : Api) (eng : EngineCtx) (action : String)
    (priceArg : Option ℚ) :
    executeTrade api eng action priceArg = noTrade eng ∨
    (∃ amount p, executeTrade api eng action priceArg = submitBuy api eng amount p) ∨
    (∃ p k, executeTrade api eng action priceArg = submitSell api eng p k) := by
  unfold executeTrade buyFullAmount buyRiskManaged sellBranch
  dsimp only
  repeat' split
  all_goals
    first
    | exact Or.inl rfl
    | exact Or.inr (Or.inl ⟨_, _, rfl⟩)
    | exact Or.inr (Or.inr ⟨_, _, rfl⟩)

/-- C3 counterexample: a gateway that raises on the first two `place_order`
calls and succeeds on the third.  The claim says this yields a recorded
successful trade; in the code `execute_trade` makes exactly one gateway call,
the exception is caught, no success is returned and no buy price recorded. -/
theorem retry_counterexample :
    letI api : Api :=
      ⟨10000, 0, some 7, none, 0, fun n => if n < 2 then .raises else .confirmed⟩
    letI eng : EngineCtx := ⟨true, true, [], none⟩
    (executeTrade api eng "BUY" (some 7)).orders.length = 1 ∧
    (executeTrade api eng "BUY" (some 7)).retval = none ∧
    (executeTrade api eng "BUY" (some 7)).buyPrice = none := by
  decide

/-- C3 (amended): there is no retry logic in `execute_trade`.  Order
submission is attempted at most once per call; when the gateway raises on that
first (and only) attempt the exception is caught locally — nothing propagates
to the caller — the call returns `None` (not `True`), and no buy price is
recorded. -/
theorem no_retry_single_attempt (api : Api) (eng : EngineCtx) (action : String)
    (priceArg : Option ℚ) (h : api.placeOrder 0 = PlaceResult.raises) :
    (executeTrade api eng action priceArg).orders.length ≤ 1 ∧
    (executeTrade api eng action priceArg).retval = none ∧
    (executeTrade api eng action priceArg).buyPrice = eng.buyPrice := by
  rcases executeTrade_cases api eng action priceArg with hc | ⟨amount, p, hc⟩ | ⟨p, k, hc⟩ <;>
    rw [hc]
  · simp [noTrade]
  · simp [submitBuy, h]
  · simp [submitSell]

/-- Witness for C3 (amended) at an always-raising gateway. -/
theorem no_retry_single_attempt_witness :
    letI api : Api := ⟨10000, 0, some 7, none, 0, fun _ => .raises⟩
    letI eng : EngineCtx := ⟨true, true, [], none⟩
    (executeTrade api eng "BUY" (some 7)).orders.length ≤ 1 ∧
    (executeTrade api eng "BUY" (some 7)).retval = none ∧
    (executeTrade api eng "BUY" (some 7)).buyPrice = none :=
  no_retry_single_attempt ⟨10000, 0, some 7, none, 0, fun _ => .raises⟩
    ⟨true, true, [], none⟩ "BUY" (some 7) rfl

/-- With trading enabled, full-amount mode and a truthy price argument, a BUY
runs the full-amount branch. -/
theorem executeTrade_buy_full (api : Api) (eng : EngineCtx) (p : ℚ)
    (he : eng.isTradingEnabled = true) (hf : eng.fullAmountMode = true)
    (hp : p ≠ 0) :
    executeTrade api eng "BUY" (some p) = buyFullAmount api eng p := by
  unfold executeTrade resolvePrice
  simp [he, hf, hp]

/-- Whatever the gateway does, the submitted buy order is the rounded-volume
limit bid. -/
theorem submitBuy_orders (api : Api) (eng : EngineCtx) (amount p : ℚ) :
    (submitBuy api eng amount p).orders =
      [⟨Side.bid, pyRound8 (amount / p), p⟩] := by
  unfold submitBuy
  cases api.placeOrder 0 <;> rfl

/-- The full-amount branch skips the trade entirely below the 5000 minimum. -/
theorem buyFullAmount_skip (api : Api) (eng : EngineCtx) (p : ℚ)
    (hlt : api.balanceKRW < 5000) :
    buyFullAmount api eng p = noTrade eng := by
  unfold buyFullAmount
  simp [hlt]

/-- With balance at least 5000, the full-amount branch submits one bid whose
volume is the clamped notional divided by the price, rounded to 8 decimals. -/
theorem buyFullAmount_orders (api : Api) (eng : EngineCtx) (p : ℚ)
    (hge : 5000 ≤ api.balanceKRW) :
    (buyFullAmount api eng p).orders =
      [⟨Side.bid,
        pyRound8 ((if api.balanceKRW * (9995/10000) < 5000 then (5000 : ℚ)
                   else api.balanceKRW * (9995/10000)) / p), p⟩] := by
  have hb0 : (0 : ℚ) < api.balanceKRW := lt_of_lt_of_le (by norm_num) hge
  have hnlt : ¬ api.balanceKRW < 5000 := not_lt.mpr hge
  have hnle : ¬ api.balanceKRW ≤ 0 := not_le.mpr hb0
  have hmin : min (api.balanceKRW * 1) (api.balanceKRW * (9995/10000))
      = api.balanceKRW * (9995/10000) := by
    refine min_eq_right ?_
    have := mul_le_mul_of_nonneg_left
      (show (9995/10000 : ℚ) ≤ 1 by norm_num) (le_of_lt hb0)
    linarith
  unfold buyFullAmount
  simp only [hnlt, if_false, hnle, hmin]
  rw [submitBuy_orders]

/-- C5: in full-amount mode, a BUY with KRW balance below the 5000 minimum is
skipped (no order reaches the gateway, no buy price is recorded, `None` is
returned); with balance at least 5000 the order notional is
`balance * 0.9995`, clamped up to exactly 5000 whenever that product falls
below 5000, so the submitted notional is never below the minimum. -/
theorem buy_min_notional (api : Api) (eng : EngineCtx) (p : ℚ)
    (he : eng.isTradingEnabled = true) (hf : eng.fullAmountMode = true)
    (hp : 0 < p) :
    (api.balanceKRW < 5000 →
      (executeTrade api eng "BUY" (some p)).orders = [] ∧
      (executeTrade api eng "BUY" (some p)).retval = none ∧
      (executeTrade api eng "BUY" (some p)).buyPrice = eng.buyPrice) ∧
    (5000 ≤ api.balanceKRW →
      ∃ amount, 5000 ≤ amount ∧
        amount = (if api.balanceKRW * (9995/10000) < 5000 then (5000 : ℚ)
                  else api.balanceKRW * (9995/10000)) ∧
        (executeTrade api eng "BUY" (some p)).orders =
          [⟨Side.bid, pyRound8 (amount / p), p⟩]) := by
  rw [executeTrade_buy_full api eng p he hf (ne_of_gt hp)]
  constructor
  · intro hlt
    rw [buyFullAmount_skip api eng p hlt]
    exact ⟨rfl, rfl, rfl⟩
  · intro hge
    refine ⟨if api.balanceKRW * (9995/10000) < 5000 then (5000 : ℚ)
            else api.balanceKRW * (9995/10000), ?_, rfl,
            buyFullAmount_orders api eng p hge⟩
    split
    · exact le_refl 5000
    · exact le_of_not_lt (by assumption)

/-- Witness for C5 at balance 5001 (the clamp-up case: 5001 × 0.9995 < 5000,
so the notional becomes exactly 5000). -/
theorem buy_min_notional_witness :
    (executeTrade ⟨5001, 0, some 7, none, 0, fun _ => .confirmed⟩
        ⟨true, true, [], none⟩ "BUY" (some 7)).orders =
      [⟨Side.bid, pyRound8 (5000 / 7), 7⟩] := by
  have h := (buy_min_notional ⟨5001, 0, some 7, none, 0, fun _ => .confirmed⟩
      ⟨true, true, [], none⟩ 7 rfl rfl (by norm_num)).2 (by norm_num)
  rcases h with ⟨amount, h5, ha, horders⟩
  have hamount : amount = 5000 := by
    rw [ha]
    norm_num
  rw [horders, hamount]

/-- C9 counterexample: with KRW balance 10000 and price 7 the computed
notional is 9995 and `9995 / 7 = 1427.857142857…`; the code submits
`round(9995/7, 8) = 1427.85714286` while truncation to 8 decimals gives
`1427.85714285` — the submitted volume is rounded, not truncated. -/
theorem volume_truncation_counterexample :
    (executeTrade ⟨10000, 0, some 7, none, 0, fun _ => .confirmed⟩
        ⟨true, true, [], none⟩ "BUY" (some 7)).orders =
      [⟨Side.bid, pyRound8 (9995/7), 7⟩] ∧
    pyRound8 (9995/7) ≠ truncate8 (9995/7) := by
  constructor
  · rw [executeTrade_buy_full _ _ _ rfl rfl (by norm_num)]
    rw [buyFullAmount_orders _ _ _ (by norm_num)]
    norm_num
  · with_unfolding_all decide

/-- C9 (amended): the submitted BUY volume is the order notional divided by
the reference price and then rounded half-to-even (Python `round`) at 8
decimal places — not truncated. -/
theorem volume_half_even_rounding (api : Api) (eng : EngineCtx) (p : ℚ)
    (he : eng.isTradingEnabled = true) (hf : eng.fullAmountMode = true)
    (hp : 0 < p) (hb : 5000 ≤ api.balanceKRW) :
    (executeTrade api eng "BUY" (some p)).orders =
      [⟨Side.bid,
        pyRound8 ((if api.balanceKRW * (9995/10000) < 5000 then (5000 : ℚ)
                   else api.balanceKRW * (9995/10000)) / p), p⟩] := by
  rw [executeTrade_buy_full api eng p he hf (ne_of_gt hp)]
  exact buyFullAmount_orders api eng p hb

/-- Witness for C9 (amended) at balance 10000 and price 7. -/
theorem volume_half_even_rounding_witness :
    (executeTrade ⟨10000, 0, some 7, none, 0, fun _ => .confirmed⟩
        ⟨true, true, [], none⟩ "BUY" (some 7)).orders =
      [⟨Side.bid,
        pyRound8 ((if (10000 : ℚ) * (9995/10000) < 5000 then (5000 : ℚ)
                   else (10000 : ℚ) * (9995/10000)) / 7), 7⟩] :=
  volume_half_even_rounding ⟨10000, 0, some 7, none, 0, fun _ => .confirmed⟩
    ⟨true, true, [], none⟩ 7 rfl rfl (by norm_num) (by norm_num)

/-- On a list of dict signals the vote count evaluates without exception to
the number of signals carrying the requested action. -/
theorem actionVotes_of_dicts (a : String) (signals : List PySignal)
    (h : ∀ s ∈ signals, s.isDict = true) :
    actionVotes a signals = .ok (signals.countP fun s => s.hasAction a) := by
  induction signals with
  | nil => rfl
  | cons s rest ih =>
    have hs := h s (List.mem_cons_self s rest)
    have hrest := ih fun x hx => h x (List.mem_cons_of_mem s hx)
    cases s with
    | intSig v => simp [PySignal.isDict] at hs
    | dictSig act pr nm =>
      simp only [actionVotes, hrest, List.countP_cons]
      by_cases hact : act = a
      · simp [hact, PySignal.hasAction]
      · simp [hact, PySignal.hasAction]

/-- C1: with trading enabled, a truthy current price and dict-shaped signals:
two or more BUY votes with no open position (zero base balance) yield exactly
the single combined BUY trade; two or more SELL votes with an open position
(positive balance) yield exactly the single combined SELL trade; in every
other case the signals are evaluated individually in order, a BUY dict firing
only without a position and a SELL dict firing only with one
(`perSignalCalls`). -/
theorem processSignals_aggregation (cp balBase : ℚ) (signals : List PySignal)
    (hdict : ∀ s ∈ signals, s.isDict = true) (hcp : 0 < cp)
    (hbal : 0 ≤ balBase) :
    (2 ≤ signals.countP (fun s => s.hasAction "BUY") ∧ balBase = 0 →
      processSignals true (some cp) balBase signals
        = .ok [⟨"BUY", "COMBINED", cp⟩]) ∧
    (2 ≤ signals.countP (fun s => s.hasAction "SELL") ∧ 0 < balBase →
      processSignals true (some cp) balBase signals
        = .ok [⟨"SELL", "COMBINED", cp⟩]) ∧
    (¬(2 ≤ signals.countP (fun s => s.hasAction "BUY") ∧ balBase = 0) →
     ¬(2 ≤ signals.countP (fun s => s.hasAction "SELL") ∧ 0 < balBase) →
      processSignals true (some cp) balBase signals
        = .ok (perSignalCalls (decide (0 < balBase)) signals)) := by
  have hne : ¬ cp = 0 := ne_of_gt hcp
  have hv1 := actionVotes_of_dicts "BUY" signals hdict
  have hv2 := actionVotes_of_dicts "SELL" signals hdict
  have hzero : decide (0 < balBase) = false ↔ balBase = 0 := by
    constructor
    · intro hd
      exact le_antisymm (not_lt.mp (of_decide_eq_false hd)) hbal
    · intro hd
      exact decide_eq_false (by rw [hd]; exact lt_irrefl 0)
  simp only [processSignals, hv1, hv2, hne, if_false, Bool.true_eq_false]
  refine ⟨?_, ?_, ?_⟩
  · rintro ⟨hb2, hb0⟩
    rw [if_pos ⟨hb2, hzero.mpr hb0⟩]
  · rintro ⟨hs2, hpos⟩
    have hd : decide (0 < balBase) = true := decide_eq_true hpos
    rw [if_neg, if_pos ⟨hs2, hd⟩]
    rintro ⟨_, hfalse⟩
    rw [hd] at hfalse
    cases hfalse
  · intro h1 h2
    rw [if_neg, if_neg]
    · rintro ⟨hs2, hd⟩
      exact h2 ⟨hs2, of_decide_eq_true hd⟩
    · rintro ⟨hb2, hd⟩
      exact h1 ⟨hb2, hzero.mp hd⟩

/-- Witness for C1: two BUY dicts, zero balance, price 100 — exactly one
combined BUY trade call. -/
theorem processSignals_aggregation_witness :
    processSignals true (some 100) 0
      [.dictSig "BUY" 99 "SMA Crossover", .dictSig "BUY" 98 "Bollinger Bands"]
      = .ok [⟨"BUY", "COMBINED", 100⟩] := by
  have h := (processSignals_aggregation 100 0
    [.dictSig "BUY" 99 "SMA Crossover", .dictSig "BUY" 98 "Bollinger Bands"]
    (by decide) (by norm_num) (le_refl 0)).1
  exact h ⟨by decide, rfl⟩

/-- Evaluation of Python's short-circuit `and` when the right-hand call
returns normally. -/
theorem pyAnd_eval (b v : Bool) (f : Unit → PyResult Bool)
    (hf : f () = .ok v) : pyAnd b f = .ok (b && v) := by
  cases b <;> simp [pyAnd, hf]

/-- With trading enabled and a truthy price argument, a SELL runs the sell
branch. -/
theorem executeTrade_sell (api : Api) (eng : EngineCtx) (p : ℚ)
    (he : eng.isTradingEnabled = true) (hp : p ≠ 0) :
    executeTrade api eng "SELL" (some p) = sellBranch api eng p := by
  unfold executeTrade resolvePrice
  simp [he, hp]

/-- Characterisation of the stop-loss path inside the sell branch: with a held
position, a known nonzero average buy price, and the strong/extreme signal
checks evaluating normally, the stop-loss sell happens exactly on the coded
thresholds. -/
theorem sellBranch_stopLoss_iff (api : Api) (eng : EngineCtx) (a p : ℚ)
    (s e : Bool) (hbal : ¬ api.balanceBase ≤ 0) (ha : api.avgBuyPrice = some a)
    (ha0 : ¬ a = 0) (hs : isStrongSellSignal eng.strategies = .ok s)
    (hx : isExtremeSellSignal eng.strategies = .ok e) :
    ((sellBranch api eng p).sellKind = some SellKind.stopLoss ↔
      ((p - a) / a * 100 < -1 ∨
       ((p - a) / a * 100 < -(8/10) ∧ s = true) ∨
       ((p - a) / a * 100 < -(5/10) ∧ e = true))) := by
  have h1 := pyAnd_eval (decide ((p - a) / a * 100 < -(8/10))) s
    (fun _ => isStrongSellSignal eng.strategies) hs
  have h2 := pyAnd_eval (decide ((p - a) / a * 100 < -(5/10))) e
    (fun _ => isExtremeSellSignal eng.strategies) hx
  have h3 := pyAnd_eval (decide (15/10 < (p - a) / a * 100)) s
    (fun _ => isStrongSellSignal eng.strategies) hs
  have h4 := pyAnd_eval (decide (1 < (p - a) / a * 100)) e
    (fun _ => isExtremeSellSignal eng.strategies) hx
  have hiff : ((p - a) / a * 100 < -1 ∨
      (decide ((p - a) / a * 100 < -(8/10)) && s) = true ∨
      (decide ((p - a) / a * 100 < -(5/10)) && e) = true) ↔
      ((p - a) / a * 100 < -1 ∨
       ((p - a) / a * 100 < -(8/10) ∧ s = true) ∨
       ((p - a) / a * 100 < -(5/10) ∧ e = true)) := by
    simp [Bool.and_eq_true, decide_eq_true_eq]
  simp only [sellBranch, hbal, if_false, ha, ha0, h1, h2, h3, h4]
  split_ifs with hc ht
  · simp only [submitSell]
    exact iff_of_true (by simp) (hiff.mp hc)
  · simp only [submitSell]
    constructor
    · intro hbad
      cases hbad
    · intro hr
      exact absurd (hiff.mpr hr) hc
  · simp only [submitSell]
    constructor
    · intro hbad
      cases hbad
    · intro hr
      exact absurd (hiff.mpr hr) hc

/-- C2 counterexample: two concrete SELL evaluations.  First, a margin of
exactly −0.5% (price 99.5, average buy price 100) with an extreme sell
condition true (a Bollinger strategy emitting SELL with band-width ratio
0.06 > 0.05): the claim says the stop-loss branch fires, but the code's
strict `margin < -0.5` comparison sends it down the normal sell path.
Second, a margin of −0.75% with a strong sell (two strategies emitting SELL):
the claim's "below −0.7 with ≥2 SELL" threshold would fire, but the code uses
`margin < -0.8`, so again the normal path runs. -/
theorem stopLoss_boundary_counterexample :
    (isExtremeSellSignal
        [{ kind := .bollinger,
           signal := some (.dictSig "SELL" 99 "Bollinger Bands"),
           latestBBW := 6/100 }] = .ok true ∧
      (executeTrade ⟨0, 1, some (199/2), some 100, 0, fun _ => .confirmed⟩
          ⟨true, true,
           [{ kind := .bollinger,
              signal := some (.dictSig "SELL" 99 "Bollinger Bands"),
              latestBBW := 6/100 }], none⟩ "SELL" (some (199/2))).sellKind
        = some SellKind.normal) ∧
    (isStrongSellSignal
        [{ kind := .sma, signal := some (.dictSig "SELL" 99 "SMA Crossover") },
         { kind := .bollinger,
           signal := some (.dictSig "SELL" 99 "Bollinger Bands"),
           latestBBW := 1/100 }] = .ok true ∧
      (executeTrade ⟨0, 1, some (397/4), some 100, 0, fun _ => .confirmed⟩
          ⟨true, true,
           [{ kind := .sma, signal := some (.dictSig "SELL" 99 "SMA Crossover") },
            { kind := .bollinger,
              signal := some (.dictSig "SELL" 99 "Bollinger Bands"),
              latestBBW := 1/100 }], none⟩ "SELL" (some (397/4))).sellKind
        = some SellKind.normal) := by
  with_unfolding_all decide

/-- C2 (amended): for every SELL executed with a position held and a known
nonzero average buy price, with margin = (price − avg)/avg × 100 and the
strong/extreme checks evaluating normally, the stop-loss branch is taken
exactly when margin < −1.0, or margin < −0.8 with at least 2 strategies
currently emitting SELL, or margin strictly below −0.5 with an extreme sell
condition (latest RSI > 85 or Bollinger band-width ratio > 0.05 on a strategy
emitting SELL); in particular a margin of exactly −0.5 never triggers the
stop-loss, extreme condition or not. -/
theorem stopLoss_conditions (api : Api) (eng : EngineCtx) (a p : ℚ)
    (s e : Bool) (he : eng.isTradingEnabled = true)
    (hbal : 0 < api.balanceBase) (ha : api.avgBuyPrice = some a)
    (ha0 : 0 < a) (hp : 0 < p)
    (hs : isStrongSellSignal eng.strategies = .ok s)
    (hx : isExtremeSellSignal eng.strategies = .ok e) :
    ((executeTrade api eng "SELL" (some p)).sellKind = some SellKind.stopLoss ↔
      ((p - a) / a * 100 < -1 ∨
       ((p - a) / a * 100 < -(8/10) ∧ s = true) ∨
       ((p - a) / a * 100 < -(5/10) ∧ e = true))) := by
  rw [executeTrade_sell api eng p he (ne_of_gt hp)]
  exact sellBranch_stopLoss_iff api eng a p s e (not_le.mpr hbal) ha
    (ne_of_gt ha0) hs hx

/-- Witness for C2 (amended): average buy price 100, price 98.9, margin
−1.1% < −1.0, no strategies: the stop-loss sell fires under the base
threshold. -/
theorem stopLoss_conditions_witness :
    (executeTrade ⟨0, 1, some (989/10), some 100, 0, fun _ => .confirmed⟩
        ⟨true, true, [], none⟩ "SELL" (some (989/10))).sellKind
      = some SellKind.stopLoss := by
  have h := stopLoss_conditions
    ⟨0, 1, some (989/10), some 100, 0, fun _ => .confirmed⟩
    ⟨true, true, [], none⟩ 100 (989/10) false false rfl (by norm_num) rfl
    (by norm_num) (by norm_num) rfl rfl
  exact h.mpr (Or.inl (by norm_num))

/-- Every entry of the gain column is nonnegative. -/
theorem gainSeries_nonneg (closes : List ℚ) :
    ∀ x ∈ gainSeries closes, 0 ≤ x := by
  intro x hx
  cases closes with
  | nil => cases hx
  | cons c rest =>
    simp only [gainSeries] at hx
    rcases List.mem_cons.mp hx with h0 | hmem
    · exact h0.ge
    · obtain ⟨d, _, hd⟩ := List.mem_map.mp hmem
      exact hd ▸ le_max_right d 0

/-- Every entry of the loss column is nonnegative. -/
theorem lossSeries_nonneg (closes : List ℚ) :
    ∀ x ∈ lossSeries closes, 0 ≤ x := by
  intro x hx
  cases closes with
  | nil => cases hx
  | cons c rest =>
    simp only [lossSeries] at hx
    rcases List.mem_cons.mp hx with h0 | hmem
    · exact h0.ge
    · obtain ⟨d, _, hd⟩ := List.mem_map.mp hmem
      exact hd ▸ le_max_right (-d) 0

/-- The rolling mean of a nonnegative series is nonnegative. -/
theorem lastWindowMean_nonneg (period : ℕ) (l : List ℚ)
    (h : ∀ x ∈ l, 0 ≤ x) : 0 ≤ lastWindowMean period l := by
  unfold lastWindowMean
  apply div_nonneg
  · exact List.sum_nonneg fun x hx => h x (List.drop_subset _ l hx)
  · exact Nat.cast_nonneg period

/-- C10: over any close-price series long enough for the window, whenever the
computed rolling averages are not both zero (the degenerate all-equal-prices
case, where pandas produces `NaN`), the last-row RSI exists and lies in
[0, 100]; and whenever the average loss is zero while the average gain is
positive, the RSI is exactly 100 (the float quotient is `+inf` and
`100 - 100/(1 + inf) = 100`). -/
theorem rsi_bounded (closes : List ℚ) (period : ℕ) (hp : 0 < period)
    (hlen : period ≤ closes.length) :
    (¬(lastWindowMean period (gainSeries closes) = 0 ∧
        lastWindowMean period (lossSeries closes) = 0) →
      ∃ r, lastRSI closes period = some r ∧ 0 ≤ r ∧ r ≤ 100) ∧
    (lastWindowMean period (lossSeries closes) = 0 ∧
        0 < lastWindowMean period (gainSeries closes) →
      lastRSI closes period = some 100) := by
  have hg0 : 0 ≤ lastWindowMean period (gainSeries closes) :=
    lastWindowMean_nonneg period _ (gainSeries_nonneg closes)
  have hl0 : 0 ≤ lastWindowMean period (lossSeries closes) :=
    lastWindowMean_nonneg period _ (lossSeries_nonneg closes)
  constructor
  · intro hnd
    unfold lastRSI rsiFromAverages
    by_cases hl : lastWindowMean period (lossSeries closes) = 0
    · have hgne : ¬ lastWindowMean period (gainSeries closes) = 0 :=
        fun hg => hnd ⟨hg, hl⟩
      rw [if_pos hl, if_neg hgne]
      exact ⟨100, rfl, by norm_num, le_refl 100⟩
    · rw [if_neg hl]
      have hrs : 0 ≤ lastWindowMean period (gainSeries closes)
          / lastWindowMean period (lossSeries closes) := div_nonneg hg0 hl0
      have hden : (1 : ℚ) ≤ 1 + lastWindowMean period (gainSeries closes)
          / lastWindowMean period (lossSeries closes) := by linarith
      have hfrac1 : 100 / (1 + lastWindowMean period (gainSeries closes)
          / lastWindowMean period (lossSeries closes)) ≤ 100 :=
        div_le_self (by norm_num) hden
      have hfrac0 : 0 < 100 / (1 + lastWindowMean period (gainSeries closes)
          / lastWindowMean period (lossSeries closes)) :=
        div_pos (by norm_num) (lt_of_lt_of_le one_pos hden)
      exact ⟨_, rfl, by linarith, by linarith⟩
  · rintro ⟨hl, hg⟩
    unfold lastRSI rsiFromAverages
    rw [if_pos hl, if_neg (ne_of_gt hg)]

/-- Witness for C10: closes [1, 2, 4], period 2 — all deltas are gains, the
average loss is 0 and the average gain 3/2 > 0, so the RSI is exactly 100. -/
theorem rsi_bounded_witness : lastRSI [1, 2, 4] 2 = some 100 := by
  apply (rsi_bounded [1, 2, 4] 2 (by norm_num) (by simp)).2
  constructor
  · with_unfolding_all decide
  · with_unfolding_all decide

/-- Witness for C8 at concrete short dataframes. -/
theorem short_series_hold_witness :
    smaGenerateSignal (some ⟨10, 1, 50⟩) 20 = none ∧
    rsiGenerateSignal (some ⟨4, 10⟩) 14 30 70 = 0 ∧
    bollingerGenerateSignal (some ⟨3, 7, 8, 12⟩) 20 = none :=
  short_series_hold ⟨10, 1, 50⟩ ⟨4, 10⟩ ⟨3, 7, 8, 12⟩ 20 14 20 30 70
    (by decide) (by decide) (by decide)

end UpbitDash
